import Mathlib

/-!
Verification of `src/weather.py` (mcp-us-city-weather).

The Python module chains two HTTP services (a geocoder and the NWS weather
API) into a single operation `get_weather(city) -> str`.  We embed the module
shallowly:

* JSON values are the inductive type `Json`; Python distinguishes `int` and
  `float` after `json` parsing, so the embedding keeps two numeric
  constructors.  Python floats are modelled as rationals; the model covers
  finite values with terminating decimal representations, which is the range
  exercised by the program and its stubs (non-finite literals such as
  `inf`/`nan` are outside the model).
* Each network request is replaced by a stub environment `Env`: the k-th
  geocoding request and the k-th NWS request receive either a parsed JSON
  body (`some j`) or `none`.  `none` collapses transport errors, non-2xx
  statuses and JSON parse failures, exactly as the `except` blocks around
  `client.get` / `response.json()` do in the source.
* Code that may raise is embedded in `Except String`; the message carried is
  the `str(e)` rendering that the source would interpolate.  `get_weather`
  wraps its body in the outermost try/except of the source.
-/

attribute [local semireducible] Rat.mul Rat.inv Rat.add Rat.sub Rat.ofScientific

/-- JSON values as produced by `response.json()` in the source.  Python keeps
`int` and `float` apart after parsing, hence the two numeric constructors. -/
inductive Json where
  | null
  | bool (b : Bool)
  | jint (n : Int)
  | jfloat (q : ℚ)
  | str (s : String)
  | arr (xs : List Json)
  | obj (fs : List (String × Json))

/-- Python truthiness (`bool(x)`) for the JSON values of the model:
`None`, `False`, `0`, `0.0`, `""`, `[]` and `{}` are falsy. -/
def jsonTruthy : Json → Bool
  | Json.null => false
  | Json.bool b => b
  | Json.jint n => n != 0
  | Json.jfloat q => q != 0
  | Json.str s => s != ""
  | Json.arr xs => !xs.isEmpty
  | Json.obj fs => !fs.isEmpty

/-- The Python type name of a JSON value, as it appears in error texts. -/
def pyTypeName : Json → String
  | Json.null => "NoneType"
  | Json.bool _ => "bool"
  | Json.jint _ => "int"
  | Json.jfloat _ => "float"
  | Json.str _ => "str"
  | Json.arr _ => "list"
  | Json.obj _ => "dict"

/-- Model of `x.get(key, dflt)`: defined on dictionaries, raises `AttributeError` on
every other value.  The carried string is the `str(e)` rendering. -/
def pyGet (j : Json) (key : String) (dflt : Json) : Except String Json :=
  match j with
  | Json.obj fs => Except.ok ((fs.lookup key).getD dflt)
  | other =>
      Except.error ("\x27" ++ pyTypeName other ++ "\x27 object has no attribute \x27get\x27")

/-- Least `k ≤ 30` such that `q * 10^k` is an integer, when one exists:
the decimal exponent of a terminating decimal rational. -/
def decExpFind (q : ℚ) : Option ℕ :=
  (List.range 31).find? (fun k => (q * (10 : ℚ) ^ k).den == 1)

/-- Rendering `str()` of a Python float, for the terminating decimals covered by the
model: sign, integer part, a point, and at least one fractional digit
(`str(37.0) = "37.0"`, `str(-122.4194) = "-122.4194"`).  Rationals without a
terminating decimal expansion are outside the float model and fall back to
the raw rational rendering. -/
def pyFloatStr (q : ℚ) : String :=
  match decExpFind q with
  | some k =>
      let k1 := max k 1
      let m := (q * (10 : ℚ) ^ k1).num.natAbs
      let ip := m / 10 ^ k1
      let fp := m % 10 ^ k1
      let fs := toString fp
      let fsPad := String.mk (List.replicate (k1 - fs.length) '0') ++ fs
      (if q < 0 then "-" else "") ++ toString ip ++ "." ++ fsPad
  | none => toString q

/-- Numeric value of a list of decimal digit characters. -/
def digitsVal (cs : List Char) : ℕ :=
  cs.foldl (fun a c => 10 * a + (c.toNat - '0'.toNat)) 0

/-- Model of `str.strip()`: remove whitespace from both ends. -/
def pyStrip (s : String) : String :=
  String.mk (((s.data.dropWhile Char.isWhitespace).reverse.dropWhile Char.isWhitespace).reverse)

/-- Model of `float(s)` on text, for the finite decimal forms covered by the model:
surrounding whitespace, an optional sign, digits with an optional point
(at least one digit overall), and an optional exponent.  `none` means the
Python call raises `ValueError`.  (Non-finite literals such as `inf`/`nan`
and digit-group underscores are outside the model.) -/
def strToFloat (s : String) : Option ℚ :=
  let cs := (pyStrip s).data
  let signAndRest : ℚ × List Char :=
    match cs with
    | '+' :: r => (1, r)
    | '-' :: r => (-1, r)
    | r => (1, r)
  let sign := signAndRest.1
  let cs1 := signAndRest.2
  let intPart := cs1.takeWhile Char.isDigit
  let rest1 := cs1.dropWhile Char.isDigit
  let fracAndRest : List Char × List Char :=
    match rest1 with
    | '.' :: r => (r.takeWhile Char.isDigit, r.dropWhile Char.isDigit)
    | r => ([], r)
  let fracPart := fracAndRest.1
  let rest2 := fracAndRest.2
  if intPart.isEmpty && fracPart.isEmpty then none
  else
    let mant : ℚ :=
      sign * ((digitsVal intPart : ℚ) + (digitsVal fracPart : ℚ) / (10 : ℚ) ^ fracPart.length)
    match rest2 with
    | [] => some mant
    | e :: r =>
        if e == 'e' || e == 'E' then
          let esignAndRest : Bool × List Char :=
            match r with
            | '+' :: rr => (false, rr)
            | '-' :: rr => (true, rr)
            | rr => (false, rr)
          let eneg := esignAndRest.1
          let r1 := esignAndRest.2
          let ed := r1.takeWhile Char.isDigit
          let rest3 := r1.dropWhile Char.isDigit
          if ed.isEmpty || !rest3.isEmpty then none
          else some (if eneg then mant / (10 : ℚ) ^ digitsVal ed else mant * (10 : ℚ) ^ digitsVal ed)
        else none

/-- Model of `float(x)` on a JSON value: numbers convert, booleans convert to 0/1,
text is parsed, everything else raises `TypeError` (`none`). -/
def pyFloat : Json → Option ℚ
  | Json.jint n => some (n : ℚ)
  | Json.jfloat q => some q
  | Json.bool b => some (if b then 1 else 0)
  | Json.str s => strToFloat s
  | _ => none

/-- Round a rational to an integer, ties to even: the rounding used by
Python `round`. -/
def roundHalfEven (q : ℚ) : ℤ :=
  let f := Rat.floor q
  let r := q - (f : ℚ)
  if r < 1 / 2 then f
  else if 1 / 2 < r then f + 1
  else if f % 2 = 0 then f else f + 1

/-- Model of `round(x, 4)` of the source, on the exact rationals of the model. -/
def pyRound4 (q : ℚ) : ℚ := ((roundHalfEven (q * 10000) : ℤ) : ℚ) / 10000

mutual

/-- Rendering `repr()` of a JSON value, used when containers are interpolated into
text.  String escaping inside `repr` is not modelled (no property below
interpolates container values). -/
def pyReprJ : Json → String
  | Json.null => "None"
  | Json.bool true => "True"
  | Json.bool false => "False"
  | Json.jint n => toString n
  | Json.jfloat q => pyFloatStr q
  | Json.str s => "\x27" ++ s ++ "\x27"
  | Json.arr xs => pyReprList xs
  | Json.obj fs => pyReprObj fs

/-- Rendering `repr()` of a list, opening bracket included. -/
def pyReprList : List Json → String
  | [] => "[]"
  | x :: xs => "[" ++ pyReprJ x ++ pyReprListRest xs

/-- Rendering `repr()` of the remaining elements of a list, closing bracket included. -/
def pyReprListRest : List Json → String
  | [] => "]"
  | x :: xs => ", " ++ pyReprJ x ++ pyReprListRest xs

/-- Rendering `repr()` of a dictionary, opening brace included. -/
def pyReprObj : List (String × Json) → String
  | [] => "\x7b\x7d"
  | (k, v) :: fs => "\x7b\x27" ++ k ++ "\x27: " ++ pyReprJ v ++ pyReprObjRest fs

/-- Rendering `repr()` of the remaining entries of a dictionary, closing brace
included. -/
def pyReprObjRest : List (String × Json) → String
  | [] => "\x7d"
  | (k, v) :: fs => ", \x27" ++ k ++ "\x27: " ++ pyReprJ v ++ pyReprObjRest fs

end

/-- Rendering `str(x)`, the f-string interpolation of a JSON value. -/
def pyJsonStr : Json → String
  | Json.str s => s
  | Json.null => "None"
  | Json.bool true => "True"
  | Json.bool false => "False"
  | Json.jint n => toString n
  | Json.jfloat q => pyFloatStr q
  | Json.arr xs => pyReprList xs
  | Json.obj fs => pyReprObj fs

/-- Stub environment for the two HTTP services.  `geo k url` is the parsed
body of the k-th geocoding request of one `get_weather` invocation, `nws k
url` the parsed body of the k-th NWS request; `none` collapses transport
errors, non-2xx statuses and JSON parse failures, exactly as the `except` blocks of the source around `client.get` / `response.json()` do. -/
structure Env where
  geo : ℕ → String → Option Json
  nws : ℕ → String → Option Json

/-- Model of `make_nws_request(url)` (source lines 12-24): a GET with fixed headers
and timeout whose every failure is collapsed to `None`.  `k` indexes the NWS
requests of one `get_weather` invocation in program order. -/
def make_nws_request (env : Env) (k : ℕ) (url : String) : Option Json :=
  env.nws k url

/-- Model of `x[key]` for a string key, as used on the first geocoding result: a
lookup on dictionaries; on anything else Python raises (`TypeError` or
`KeyError`), which the surrounding `except` collapses, hence `none`. -/
def jsonItem (j : Json) (key : String) : Option Json :=
  match j with
  | Json.obj fs => fs.lookup key
  | _ => none

/-- Model of `geocode_city(city)` (source lines 26-52).  The whole body sits inside
`try: ... except Exception: return None`, so every failure path collapses to
`none`:
* fetch failure or unparseable body (`env.geo k url = none`);
* a falsy body, or a truthy body that is not a non-empty list (the
  `if data and len(data) > 0` guard, or `data[0]` / `len(data)` raising);
* a first element without a `"lat"`/`"lon"` entry, or one whose value
  `float()` cannot convert. -/
def geocode_city (env : Env) (k : ℕ) (city : String) : Option (ℚ × ℚ) :=
  let url := "https://nominatim.openstreetmap.org/search?q=" ++ city ++ "&format=json&limit=1"
  match env.geo k url with
  | none => none
  | some data =>
    match data with
    | Json.arr (first :: _) =>
      match jsonItem first "lat" with
      | none => none
      | some latJ =>
        match pyFloat latJ with
        | none => none
        | some lat =>
          match jsonItem first "lon" with
          | none => none
          | some lonJ =>
            match pyFloat lonJ with
            | none => none
            | some lon => some (lat, lon)
    | _ => none

/-- Constant `NWS_API_BASE` (source line 9). -/
def NWS_API_BASE : String := "https://api.weather.gov"

/-- Model of `get_points_url(city)` (source lines 54-77): geocode (the first
geocoding request), and either return the error text or round the
coordinates to 4 decimal places and format the points URL. -/
def get_points_url (env : Env) (city : String) : String :=
  match geocode_city env 0 city with
  | none => "Could not find coordinates for city: " ++ city
  | some (latitude, longitude) =>
    let lat_str := pyStrip (pyFloatStr (pyRound4 latitude))
    let lon_str := pyStrip (pyFloatStr (pyRound4 longitude))
    NWS_API_BASE ++ "/points/" ++ lat_str ++ "," ++ lon_str

/-- Model of `get_forecast_url(grid_id, grid_x, grid_y)` (source lines 79-93).  The
values interpolated are whatever JSON values the points response held. -/
def get_forecast_url (grid_id grid_x grid_y : Json) : String :=
  NWS_API_BASE ++ "/gridpoints/" ++ pyJsonStr grid_id ++ "/" ++ pyJsonStr grid_x ++ ","
    ++ pyJsonStr grid_y ++ "/forecast"

/-- The `try` body of `extract_grid_info` (source lines 105-119): fetch the
points URL (NWS request `k`), treat `None` or a falsy body as
`ValueError("Failed to retrieve points data")`, read
`properties.gridId/gridX/gridY` with `.get`, and require all three to be
truthy (`if not all([grid_id, grid_x, grid_y])`). -/
def extract_grid_info_body (env : Env) (k : ℕ) (points_url : String) :
    Except String (Json × Json × Json) :=
  match make_nws_request env k points_url with
  | none => Except.error "Failed to retrieve points data"
  | some points_data =>
    if jsonTruthy points_data then
      match pyGet points_data "properties" (Json.obj []) with
      | Except.error e => Except.error e
      | Except.ok properties =>
        match pyGet properties "gridId" Json.null with
        | Except.error e => Except.error e
        | Except.ok grid_id =>
          match pyGet properties "gridX" Json.null with
          | Except.error e => Except.error e
          | Except.ok grid_x =>
            match pyGet properties "gridY" Json.null with
            | Except.error e => Except.error e
            | Except.ok grid_y =>
              if jsonTruthy grid_id && jsonTruthy grid_x && jsonTruthy grid_y then
                Except.ok (grid_id, grid_x, grid_y)
              else Except.error "Grid information is missing"
    else Except.error "Failed to retrieve points data"

/-- Model of `extract_grid_info(points_url)` (source lines 95-121).  Any exception of
the body is re-raised as `ValueError(f"extract_grid_info: {str(e)}")`; the
function never returns `None`, despite its docstring. -/
def extract_grid_info (env : Env) (k : ℕ) (points_url : String) :
    Except String (Json × Json × Json) :=
  match extract_grid_info_body env k points_url with
  | Except.ok t => Except.ok t
  | Except.error e => Except.error ("extract_grid_info: " ++ e)

/-- The location-display block of `get_weather` (source lines 171-179): the
third NWS request re-fetches the points URL; a missing or falsy body falls
back to the input city; otherwise the nested
`relativeLocation.properties.city/state` values are read with `.get`
defaults `"Unknown"`, and the city value is compared against the string
`"Unknown"` to choose between `f"{city}, {state}"` and the input text. -/
def locationDisplay (env : Env) (city : String) (points_url : String) : Except String String :=
  match make_nws_request env 2 points_url with
  | none => Except.ok city
  | some points_data =>
    if jsonTruthy points_data then
      match pyGet points_data "properties" (Json.obj []) with
      | Except.error e => Except.error e
      | Except.ok properties =>
        match pyGet properties "relativeLocation" (Json.obj []) with
        | Except.error e => Except.error e
        | Except.ok rl1 =>
          match pyGet rl1 "properties" (Json.obj []) with
          | Except.error e => Except.error e
          | Except.ok rlp1 =>
            match pyGet rlp1 "city" (Json.str "Unknown") with
            | Except.error e => Except.error e
            | Except.ok location_city =>
              match pyGet properties "relativeLocation" (Json.obj []) with
              | Except.error e => Except.error e
              | Except.ok rl2 =>
                match pyGet rl2 "properties" (Json.obj []) with
                | Except.error e => Except.error e
                | Except.ok rlp2 =>
                  match pyGet rlp2 "state" (Json.str "Unknown") with
                  | Except.error e => Except.error e
                  | Except.ok location_state =>
                    match location_city with
                    | Json.str s =>
                      if s == "Unknown" then Except.ok city
                      else Except.ok (s ++ ", " ++ pyJsonStr location_state)
                    | other => Except.ok (pyJsonStr other ++ ", " ++ pyJsonStr location_state)
    else Except.ok city

/-- One field of the report template: `current.get(key, dflt)` interpolated
into the f-string (source lines 185-189). -/
def fGet (current : Json) (key : String) (dflt : String) : Except String String :=
  match pyGet current key (Json.str dflt) with
  | Except.error e => Except.error e
  | Except.ok v => Except.ok (pyJsonStr v)

/-- The report f-string of `get_weather` (source lines 182-190), including
the leading and trailing newline of the triple-quoted literal and the
double-encoded degree sign that the source contains between temperature and
unit.  Defaults: `"Unknown"` for name, temperature, shortForecast and
windSpeed; `"F"` for temperatureUnit; `""` for windDirection; a longer
sentence for detailedForecast. -/
def format_report (location_display : String) (latitude longitude : ℚ) (current : Json) :
    Except String String :=
  match fGet current "name" "Unknown" with
  | Except.error e => Except.error e
  | Except.ok nameS =>
    match fGet current "temperature" "Unknown" with
    | Except.error e => Except.error e
    | Except.ok tempS =>
      match fGet current "temperatureUnit" "F" with
      | Except.error e => Except.error e
      | Except.ok unitS =>
        match fGet current "shortForecast" "Unknown" with
        | Except.error e => Except.error e
        | Except.ok condS =>
          match fGet current "windSpeed" "Unknown" with
          | Except.error e => Except.error e
          | Except.ok windS =>
            match fGet current "windDirection" "" with
            | Except.error e => Except.error e
            | Except.ok windD =>
              match fGet current "detailedForecast" "No detailed forecast available" with
              | Except.error e => Except.error e
              | Except.ok detS =>
                Except.ok ("\nWeather for " ++ location_display ++ ":\nCoordinates: "
                  ++ pyFloatStr latitude ++ ", " ++ pyFloatStr longitude
                  ++ "\nForecast: " ++ nameS
                  ++ "\nTemperature: " ++ tempS ++ "Â°" ++ unitS
                  ++ "\nConditions: " ++ condS
                  ++ "\nWind: " ++ windS ++ " " ++ windD
                  ++ "\nDetails: " ++ detS ++ "\n")

/-- Model of `periods[0]` (source line 169): indexing for the JSON values of the
model.  Lists yield their head, text yields its first character; every
other value raises, with the `str(e)` text carried in the error. -/
def pyIndexZero (j : Json) : Except String Json :=
  match j with
  | Json.arr (x :: _) => Except.ok x
  | Json.arr [] => Except.error "list index out of range"
  | Json.str s =>
    match s.data with
    | c :: _ => Except.ok (Json.str (String.mk [c]))
    | [] => Except.error "string index out of range"
  | Json.obj _ => Except.error "0"
  | other => Except.error ("\x27" ++ pyTypeName other ++ "\x27 object is not subscriptable")

/-- Model of `s.startswith(p)` on the character lists of the model. -/
def listStartsWith : List Char → List Char → Bool
  | _, [] => true
  | [], _ :: _ => false
  | a :: as, b :: bs => a == b && listStartsWith as bs

/-- Model of `s.startswith(p)` (source line 139). -/
def pyStartsWith (s p : String) : Bool :=
  listStartsWith s.data p.data

/-- The `try` body of `get_weather` (source lines 134-190).  Geocoding
request 0 happens inside `get_points_url`, request 1 at line 143; NWS
request 0 is the points fetch inside `extract_grid_info`, request 1 the
forecast fetch, request 2 the points re-fetch for the location display.
The `if not grid_info` branch of line 151 is not modelled: a returned
3-tuple is always truthy in Python and `extract_grid_info` raises instead
of returning a falsy value, so that branch cannot fire. -/
def get_weatherBody (env : Env) (city : String) : Except String String :=
  let points_url := get_points_url env city
  if pyStartsWith points_url "Could not find coordinates" then Except.ok points_url
  else
    match geocode_city env 1 city with
    | none => Except.ok ("Could not find coordinates for city: " ++ city)
    | some (latitude, longitude) =>
      match extract_grid_info env 0 points_url with
      | Except.error e => Except.error e
      | Except.ok (grid_id, grid_x, grid_y) =>
        let forecast_url := get_forecast_url grid_id grid_x grid_y
        match make_nws_request env 1 forecast_url with
        | none => Except.ok ("Failed to retrieve forecast data from URL: " ++ forecast_url)
        | some forecast_data =>
          if jsonTruthy forecast_data then
            match pyGet forecast_data "properties" (Json.obj []) with
            | Except.error e => Except.error e
            | Except.ok props =>
              match pyGet props "periods" (Json.arr []) with
              | Except.error e => Except.error e
              | Except.ok periodsJ =>
                if jsonTruthy periodsJ then
                  match pyIndexZero periodsJ with
                  | Except.error e => Except.error e
                  | Except.ok current =>
                    match locationDisplay env city points_url with
                    | Except.error e => Except.error e
                    | Except.ok location_display =>
                      format_report location_display latitude longitude current
                else Except.ok "No forecast periods available in the API response."
          else Except.ok ("Failed to retrieve forecast data from URL: " ++ forecast_url)

/-- Model of `get_weather(city)` (source lines 123-192): the body above wrapped in
the outermost `try`/`except`, which renders any escaped exception as text.
The operation is total: it always returns a string. -/
def get_weather (env : Env) (city : String) : String :=
  match get_weatherBody env city with
  | Except.ok s => s
  | Except.error e => "Unexpected error in get_weather: " ++ e

/-- Predicate: `seg` occurs contiguously inside `s`. -/
def strHasSegment (s seg : String) : Prop :=
  ∃ x y : List Char, x ++ seg.data ++ y = s.data

instance (s seg : String) : Decidable (strHasSegment s seg) :=
  inferInstanceAs (Decidable (seg.data <:+: s.data))

theorem listStartsWith_self_append (p r : List Char) : listStartsWith (p ++ r) p = true := by
  induction p with
  | nil => simp [listStartsWith]
  | cons a as ih => simp [listStartsWith, ih]

theorem strHasSegment_build (s m t : String) (x y : List Char)
    (hs : x ++ m.data ++ y = s.data) (hm : strHasSegment m t) : strHasSegment s t := by
  obtain ⟨u, v, huv⟩ := hm
  refine ⟨x ++ u, v ++ y, ?_⟩
  rw [← hs, ← huv]
  simp [List.append_assoc]

theorem pyStartsWith_coord_msg (city : String) :
    pyStartsWith ("Could not find coordinates for city: " ++ city) "Could not find coordinates" = true := by
  have h : ("Could not find coordinates for city: " : String).data
      = ("Could not find coordinates" : String).data ++ (" for city: " : String).data := by decide
  unfold pyStartsWith
  rw [String.data_append, h, List.append_assoc]
  exact listStartsWith_self_append _ _

theorem pyStartsWith_points_url (a b : String) :
    pyStartsWith (NWS_API_BASE ++ "/points/" ++ a ++ "," ++ b) "Could not find coordinates" = false := by
  have h1 : (NWS_API_BASE ++ "/points/").data
      = 'h' :: ("ttps://api.weather.gov/points/" : String).data := by decide
  have h2 : ("Could not find coordinates" : String).data
      = 'C' :: ("ould not find coordinates" : String).data := by decide
  unfold pyStartsWith
  rw [show NWS_API_BASE ++ "/points/" ++ a ++ "," ++ b
      = (NWS_API_BASE ++ "/points/") ++ (a ++ ("," ++ b)) from by simp [String.append_assoc],
    String.data_append, h1, h2]
  simp [listStartsWith]

set_option maxRecDepth 20000

/-- Stubbed geocoder body: one result for San Francisco. -/
def geoSF : Json := Json.arr [Json.obj [("lat", Json.str "37.7749"), ("lon", Json.str "-122.4194")]]

/-- Stubbed points body: grid MTR 85,105 and relative location San
Francisco, CA. -/
def pointsSF : Json := Json.obj [("properties", Json.obj [("gridId", Json.str "MTR"),
  ("gridX", Json.jint 85), ("gridY", Json.jint 105),
  ("relativeLocation", Json.obj [("properties", Json.obj [("city", Json.str "San Francisco"),
    ("state", Json.str "CA")])])])]

/-- Stubbed forecast body: one period, Tonight / 58 F / Clear / 5 mph W. -/
def forecastSF : Json := Json.obj [("properties", Json.obj [("periods", Json.arr [Json.obj [
  ("name", Json.str "Tonight"), ("temperature", Json.jint 58), ("temperatureUnit", Json.str "F"),
  ("shortForecast", Json.str "Clear"), ("windSpeed", Json.str "5 mph"),
  ("windDirection", Json.str "W"), ("detailedForecast", Json.str "Clear skies.")]])])]

/-- Fully successful stub environment: NWS request 1 is the forecast fetch,
requests 0 and 2 the points fetches. -/
def envC6 : Env := Env.mk (fun _ _ => some geoSF)
  (fun k _ => match k with | 1 => some forecastSF | _ => some pointsSF)

/-- Claim C6, counterexample: on the fully successful stubbed pipeline the
report is produced (it contains the forecast line), but no substring
`"58°F"` appears in it: the source interpolates a double-encoded degree
sign, so the temperature line reads `"Temperature: 58Â°F"`. -/
theorem get_weather_success_no_plain_degree :
    strHasSegment (get_weather envC6 "San Francisco") "Forecast: Tonight" ∧
    ¬ strHasSegment (get_weather envC6 "San Francisco") "58°F" :=
  ⟨by decide, by decide⟩

/-- Claim C6 (amended: the degree sign in the temperature line is the
double-encoded `Â°` of the source, so the line reads `58Â°F`): for the fully
successful pipeline with the given stubbed responses, the report contains
the location, coordinates, forecast, temperature, conditions, wind and
details lines. -/
theorem get_weather_success_report_lines :
    strHasSegment (get_weather envC6 "San Francisco") "Weather for San Francisco, CA:" ∧
    strHasSegment (get_weather envC6 "San Francisco") "Coordinates: 37.7749, -122.4194" ∧
    strHasSegment (get_weather envC6 "San Francisco") "Forecast: Tonight" ∧
    strHasSegment (get_weather envC6 "San Francisco") "Temperature: 58Â°F" ∧
    strHasSegment (get_weather envC6 "San Francisco") "Conditions: Clear" ∧
    strHasSegment (get_weather envC6 "San Francisco") "Wind: 5 mph W" ∧
    strHasSegment (get_weather envC6 "San Francisco") "Details: Clear skies." := by
  refine ⟨?_, ?_, ?_, ?_, ?_, ?_, ?_⟩ <;> decide

/-- Stubbed points body with `gridId` missing. -/
def pointsNoGridId : Json := Json.obj [("properties", Json.obj [("gridX", Json.jint 85),
  ("gridY", Json.jint 105)])]

/-- Stub environment whose points lookup lacks `gridId`. -/
def envNoGridId : Env := Env.mk
  (fun _ _ => some (Json.arr [Json.obj [("lat", Json.str "48.8566"), ("lon", Json.str "2.3522")]]))
  (fun _ _ => some pointsNoGridId)

/-- Claim C1: evaluation at the failing input.  When the points response
lacks `gridId`, `extract_grid_info` raises (despite its docstring promising
`None`), so `get_weather` answers with the unexpected-error rendering and
not with the grid-guidance text of its dead `if not grid_info` branch. -/
theorem get_weather_missing_gridId_unexpected_error :
    get_weather envNoGridId "Paris"
      = "Unexpected error in get_weather: extract_grid_info: Grid information is missing" ∧
    get_weather envNoGridId "Paris"
      ≠ "Could not determine weather grid for this location. Please check your city name or try a different city." :=
  ⟨by decide, by decide⟩

/-- Claim C2: for every stub environment and every input, `get_weather`
returns text: either the value of its body, or, when the body raises, the
`"Unexpected error in get_weather: "` rendering of the exception text.  No
exception crosses the operation boundary (the embedding of the body is a
total function into `Except`, and both of its outcomes are returned). -/
theorem get_weather_total_boundary (env : Env) (city : String) :
    (∃ s, get_weatherBody env city = Except.ok s ∧ get_weather env city = s) ∨
    (∃ e, get_weatherBody env city = Except.error e ∧
      get_weather env city = "Unexpected error in get_weather: " ++ e) := by
  cases h : get_weatherBody env city with
  | ok s => exact Or.inl ⟨s, rfl, by simp [get_weather, h]⟩
  | error e => exact Or.inr ⟨e, rfl, by simp [get_weather, h]⟩

/-- Environment whose geocoder always fails. -/
def envGeoNone : Env := Env.mk (fun _ _ => none) (fun _ _ => none)

/-- Claim C3, counterexample: when the geocoder yields Absent, the text
returned starts with a capital C (`"Could not find coordinates for city:
..."`), so it is not the all-lowercase text the claim quotes. -/
theorem get_weather_geocode_absent_lowercase_counterexample :
    geocode_city envGeoNone 0 "Springfield" = none ∧
    get_weather envGeoNone "Springfield" ≠ "could not find coordinates for city: Springfield" :=
  ⟨rfl, by decide⟩

/-- Claim C3 (amended: the message starts with a capital C, as in the
source): whenever either geocoding request of the pipeline yields Absent,
`get_weather` returns exactly `"Could not find coordinates for city:
{place}"`. -/
theorem get_weather_geocode_absent_message (env : Env) (city : String)
    (h : geocode_city env 0 city = none ∨ geocode_city env 1 city = none) :
    get_weather env city = "Could not find coordinates for city: " ++ city := by
  cases h0 : geocode_city env 0 city with
  | none =>
    have hp : get_points_url env city = "Could not find coordinates for city: " ++ city := by
      simp [get_points_url, h0]
    simp [get_weather, get_weatherBody, hp, pyStartsWith_coord_msg]
  | some c =>
    obtain ⟨la, lo⟩ := c
    rcases h with h1 | h1
    · rw [h0] at h1; cases h1
    · have hp : get_points_url env city
          = NWS_API_BASE ++ "/points/" ++ pyStrip (pyFloatStr (pyRound4 la)) ++ ","
            ++ pyStrip (pyFloatStr (pyRound4 lo)) := by
        simp [get_points_url, h0]
      simp [get_weather, get_weatherBody, hp, pyStartsWith_points_url, h1]

/-- Claim C3, witness: the amended theorem applied to the always-failing
geocoder stub. -/
theorem get_weather_geocode_absent_message_witness :
    get_weather envGeoNone "Springfield" = "Could not find coordinates for city: Springfield" :=
  get_weather_geocode_absent_message envGeoNone "Springfield" (Or.inl rfl)

/-- Claim C8: whenever the first geocoding request succeeds with
coordinates `(lat, lon)`, `get_points_url` returns the points URL built
from `NWS_API_BASE` and the two coordinates rounded to 4 decimal places
(rendered as Python would and stripped, as in the source). -/
theorem get_points_url_rounded (env : Env) (city : String) (lat lon : ℚ)
    (h : geocode_city env 0 city = some (lat, lon)) :
    get_points_url env city
      = NWS_API_BASE ++ "/points/" ++ pyStrip (pyFloatStr (pyRound4 lat)) ++ ","
        ++ pyStrip (pyFloatStr (pyRound4 lon)) := by
  simp [get_points_url, h]

/-- Geocoder stub whose latitude has more than 4 decimal places. -/
def envRound : Env := Env.mk
  (fun _ _ => some (Json.arr [Json.obj [("lat", Json.str "37.77488"),
    ("lon", Json.str "-122.4194")]]))
  (fun _ _ => none)

/-- Claim C8, witness: 37.77488 is rounded up to 37.7749 in the URL. -/
theorem get_points_url_rounded_witness :
    get_points_url envRound "San Francisco" = "https://api.weather.gov/points/37.7749,-122.4194" :=
  (get_points_url_rounded envRound "San Francisco" (3777488/100000 : ℚ) (-1224194/10000 : ℚ)
    (by decide)).trans (by decide)

/-- Claim C9: if the geocoding response is a non-empty list whose first
element carries text `"lat"`/`"lon"` entries and either text does not parse
as a float, `geocode_city` returns Absent (`none`) instead of raising: the
`except` block of the source turns the `ValueError` of `float()` into
`None`. -/
theorem geocode_city_malformed_absent (env : Env) (k : ℕ) (city : String)
    (fs : List (String × Json)) (rest : List Json) (latText lonText : String)
    (hresp : env.geo k ("https://nominatim.openstreetmap.org/search?q=" ++ city
        ++ "&format=json&limit=1") = some (Json.arr (Json.obj fs :: rest)))
    (hlat : fs.lookup "lat" = some (Json.str latText))
    (hlon : fs.lookup "lon" = some (Json.str lonText))
    (hbad : strToFloat latText = none ∨ strToFloat lonText = none) :
    geocode_city env k city = none := by
  rcases hbad with hb | hb
  · simp [geocode_city, hresp, jsonItem, hlat, pyFloat, hb]
  · cases hsl : strToFloat latText with
    | none => simp [geocode_city, hresp, jsonItem, hlat, pyFloat, hsl]
    | some q => simp [geocode_city, hresp, jsonItem, hlat, hlon, pyFloat, hsl, hb]

/-- Geocoder stub with an unparseable latitude. -/
def envBadLat : Env := Env.mk
  (fun _ _ => some (Json.arr [Json.obj [("lat", Json.str "abc"), ("lon", Json.str "1.0")]]))
  (fun _ _ => none)

/-- Claim C9, witness: latitude text `"abc"` yields Absent. -/
theorem geocode_city_malformed_absent_witness : geocode_city envBadLat 0 "X" = none :=
  geocode_city_malformed_absent envBadLat 0 "X"
    [("lat", Json.str "abc"), ("lon", Json.str "1.0")] [] "abc" "1.0"
    rfl rfl rfl (Or.inl rfl)

/-- Claim C4: when both geocoding requests succeed, the grid is extracted,
and the forecast response is an object whose `properties.periods` is the
empty list, `get_weather` returns exactly the no-forecast-periods text of
the source. -/
theorem get_weather_empty_periods_message (env : Env) (city : String)
    (la0 lo0 la1 lo1 : ℚ) (g1 g2 g3 : Json) (ff pp : List (String × Json))
    (h0 : geocode_city env 0 city = some (la0, lo0))
    (h1 : geocode_city env 1 city = some (la1, lo1))
    (h2 : extract_grid_info env 0 (get_points_url env city) = Except.ok (g1, g2, g3))
    (h3 : make_nws_request env 1 (get_forecast_url g1 g2 g3) = some (Json.obj ff))
    (h4 : ff.lookup "properties" = some (Json.obj pp))
    (h5 : pp.lookup "periods" = some (Json.arr [])) :
    get_weather env city = "No forecast periods available in the API response." := by
  have hp : get_points_url env city
      = NWS_API_BASE ++ "/points/" ++ pyStrip (pyFloatStr (pyRound4 la0)) ++ ","
        ++ pyStrip (pyFloatStr (pyRound4 lo0)) := by
    simp [get_points_url, h0]
  rw [hp] at h2
  have hff : ff.isEmpty = false := by
    cases ff with
    | nil => simp at h4
    | cons a l => rfl
  simp [get_weather, get_weatherBody, hp, pyStartsWith_points_url, h1, h2, h3, hff,
    pyGet, h4, h5, jsonTruthy]

/-- Forecast body with an empty period list. -/
def forecastEmpty : Json := Json.obj [("properties", Json.obj [("periods", Json.arr [])])]

/-- Successful environment whose forecast has zero periods. -/
def envEmptyPeriods : Env := Env.mk (fun _ _ => some geoSF)
  (fun k _ => match k with | 1 => some forecastEmpty | _ => some pointsSF)

/-- Claim C4, witness: the theorem applied to the zero-period stub. -/
theorem get_weather_empty_periods_message_witness :
    get_weather envEmptyPeriods "San Francisco"
      = "No forecast periods available in the API response." :=
  get_weather_empty_periods_message envEmptyPeriods "San Francisco"
    (377749/10000 : ℚ) (-1224194/10000 : ℚ) (377749/10000 : ℚ) (-1224194/10000 : ℚ)
    (Json.str "MTR") (Json.jint 85) (Json.jint 105)
    [("properties", Json.obj [("periods", Json.arr [])])]
    [("periods", Json.arr [])]
    (by decide) (by decide) rfl rfl rfl rfl

/-- Claim C7: grid extraction is all-or-nothing.  Whenever the points fetch
returns an object whose `properties` entry is an object, `extract_grid_info`
returns a triple exactly when the three values read from `properties` (with
the Python `None` for a missing key) are all truthy, and that triple is the
three values themselves; if any of the three is missing or falsy it fails
with the wrapped grid-information error. -/
theorem extract_grid_info_all_or_nothing (env : Env) (k : ℕ) (url : String)
    (pf props : List (String × Json))
    (hresp : make_nws_request env k url = some (Json.obj pf))
    (hne : pf.isEmpty = false)
    (hprops : pf.lookup "properties" = some (Json.obj props)) :
    (∀ t, extract_grid_info env k url = Except.ok t ↔
      (t = ((props.lookup "gridId").getD Json.null, (props.lookup "gridX").getD Json.null,
            (props.lookup "gridY").getD Json.null) ∧
       (jsonTruthy ((props.lookup "gridId").getD Json.null)
         && jsonTruthy ((props.lookup "gridX").getD Json.null)
         && jsonTruthy ((props.lookup "gridY").getD Json.null)) = true)) ∧
    ((jsonTruthy ((props.lookup "gridId").getD Json.null)
       && jsonTruthy ((props.lookup "gridX").getD Json.null)
       && jsonTruthy ((props.lookup "gridY").getD Json.null)) = false →
      extract_grid_info env k url = Except.error "extract_grid_info: Grid information is missing") := by
  have hbody : extract_grid_info_body env k url
      = (if jsonTruthy ((props.lookup "gridId").getD Json.null)
            && jsonTruthy ((props.lookup "gridX").getD Json.null)
            && jsonTruthy ((props.lookup "gridY").getD Json.null)
         then Except.ok ((props.lookup "gridId").getD Json.null,
            (props.lookup "gridX").getD Json.null, (props.lookup "gridY").getD Json.null)
         else Except.error "Grid information is missing") := by
    unfold extract_grid_info_body
    rw [hresp]
    simp only [jsonTruthy, hne, Bool.not_false, pyGet, hprops, Option.getD_some, if_true]
  unfold extract_grid_info
  rw [hbody]
  by_cases hc : (jsonTruthy ((props.lookup "gridId").getD Json.null)
      && jsonTruthy ((props.lookup "gridX").getD Json.null)
      && jsonTruthy ((props.lookup "gridY").getD Json.null)) = true
  · rw [if_pos hc]
    constructor
    · intro t
      constructor
      · intro h
        injection h with h2
        exact ⟨h2.symm, hc⟩
      · rintro ⟨ht, h2⟩
        rw [ht]
    · intro hcf
      rw [hc] at hcf
      cases hcf
  · have hcf := eq_false_of_ne_true hc
    rw [if_neg hc]
    constructor
    · intro t
      constructor
      · intro h
        cases h
      · rintro ⟨ht, hT⟩
        rw [hcf] at hT
        cases hT
    · intro h2
      rfl

/-- Claim C7, witness: the theorem applied to the successful points stub,
where all three grid fields are present and truthy. -/
theorem extract_grid_info_all_or_nothing_witness :
    extract_grid_info envC6 0 "https://api.weather.gov/points/37.7749,-122.4194"
      = Except.ok (Json.str "MTR", Json.jint 85, Json.jint 105) :=
  ((extract_grid_info_all_or_nothing envC6 0 "https://api.weather.gov/points/37.7749,-122.4194"
    [("properties", Json.obj [("gridId", Json.str "MTR"), ("gridX", Json.jint 85),
      ("gridY", Json.jint 105), ("relativeLocation", Json.obj [("properties",
        Json.obj [("city", Json.str "San Francisco"), ("state", Json.str "CA")])])])]
    [("gridId", Json.str "MTR"), ("gridX", Json.jint 85), ("gridY", Json.jint 105),
      ("relativeLocation", Json.obj [("properties",
        Json.obj [("city", Json.str "San Francisco"), ("state", Json.str "CA")])])]
    rfl rfl rfl).1 (Json.str "MTR", Json.jint 85, Json.jint 105)).mpr ⟨rfl, rfl⟩

/-- The rendered value of one report field: the value of the field if present,
the default otherwise. -/
def slotStr (fs : List (String × Json)) (key dflt : String) : String :=
  pyJsonStr ((fs.lookup key).getD (Json.str dflt))

/-- The report template text with the seven field slots abstracted. -/
def reportText (L : String) (lat lon : ℚ) (n t u c w wd d : String) : String :=
  "\nWeather for " ++ L ++ ":\nCoordinates: " ++ pyFloatStr lat ++ ", " ++ pyFloatStr lon
    ++ "\nForecast: " ++ n ++ "\nTemperature: " ++ t ++ "Â°" ++ u ++ "\nConditions: " ++ c
    ++ "\nWind: " ++ w ++ " " ++ wd ++ "\nDetails: " ++ d ++ "\n"

theorem reportText_seg_name {L : String} {lat lon : ℚ} {t u c w wd d : String} :
    strHasSegment (reportText L lat lon "Unknown" t u c w wd d) "\nForecast: Unknown\n" := by
  refine strHasSegment_build _ ("\nForecast: " ++ "Unknown" ++ "\nTemperature: ") _
    ("\nWeather for " ++ L ++ ":\nCoordinates: " ++ pyFloatStr lat ++ ", " ++ pyFloatStr lon).data
    (t ++ "Â°" ++ u ++ "\nConditions: " ++ c ++ "\nWind: " ++ w ++ " " ++ wd
      ++ "\nDetails: " ++ d ++ "\n").data ?_ (by decide)
  simp [reportText, List.append_assoc]

theorem reportText_seg_temp {L : String} {lat lon : ℚ} {n u c w wd d : String} :
    strHasSegment (reportText L lat lon n "Unknown" u c w wd d) "\nTemperature: UnknownÂ°" := by
  refine strHasSegment_build _ ("\nTemperature: " ++ "Unknown" ++ "Â°") _
    ("\nWeather for " ++ L ++ ":\nCoordinates: " ++ pyFloatStr lat ++ ", " ++ pyFloatStr lon
      ++ "\nForecast: " ++ n).data
    (u ++ "\nConditions: " ++ c ++ "\nWind: " ++ w ++ " " ++ wd
      ++ "\nDetails: " ++ d ++ "\n").data ?_ (by decide)
  simp [reportText, List.append_assoc]

theorem reportText_seg_unit {L : String} {lat lon : ℚ} {n t c w wd d : String} :
    strHasSegment (reportText L lat lon n t "F" c w wd d) "Â°F\nConditions: " := by
  refine strHasSegment_build _ ("Â°" ++ "F" ++ "\nConditions: ") _
    ("\nWeather for " ++ L ++ ":\nCoordinates: " ++ pyFloatStr lat ++ ", " ++ pyFloatStr lon
      ++ "\nForecast: " ++ n ++ "\nTemperature: " ++ t).data
    (c ++ "\nWind: " ++ w ++ " " ++ wd ++ "\nDetails: " ++ d ++ "\n").data ?_ (by decide)
  simp [reportText, List.append_assoc]

theorem reportText_seg_cond {L : String} {lat lon : ℚ} {n t u w wd d : String} :
    strHasSegment (reportText L lat lon n t u "Unknown" w wd d) "\nConditions: Unknown\n" := by
  refine strHasSegment_build _ ("\nConditions: " ++ "Unknown" ++ "\nWind: ") _
    ("\nWeather for " ++ L ++ ":\nCoordinates: " ++ pyFloatStr lat ++ ", " ++ pyFloatStr lon
      ++ "\nForecast: " ++ n ++ "\nTemperature: " ++ t ++ "Â°" ++ u).data
    (w ++ " " ++ wd ++ "\nDetails: " ++ d ++ "\n").data ?_ (by decide)
  simp [reportText, List.append_assoc]

theorem reportText_seg_wind {L : String} {lat lon : ℚ} {n t u c wd d : String} :
    strHasSegment (reportText L lat lon n t u c "Unknown" wd d) "\nWind: Unknown " := by
  refine strHasSegment_build _ ("\nWind: " ++ "Unknown" ++ " ") _
    ("\nWeather for " ++ L ++ ":\nCoordinates: " ++ pyFloatStr lat ++ ", " ++ pyFloatStr lon
      ++ "\nForecast: " ++ n ++ "\nTemperature: " ++ t ++ "Â°" ++ u
      ++ "\nConditions: " ++ c).data
    (wd ++ "\nDetails: " ++ d ++ "\n").data ?_ (by decide)
  simp [reportText, List.append_assoc]

theorem reportText_seg_winddir {L : String} {lat lon : ℚ} {n t u c w d : String} :
    strHasSegment (reportText L lat lon n t u c w "" d) " \nDetails: " := by
  refine strHasSegment_build _ (" " ++ "" ++ "\nDetails: ") _
    ("\nWeather for " ++ L ++ ":\nCoordinates: " ++ pyFloatStr lat ++ ", " ++ pyFloatStr lon
      ++ "\nForecast: " ++ n ++ "\nTemperature: " ++ t ++ "Â°" ++ u
      ++ "\nConditions: " ++ c ++ "\nWind: " ++ w).data
    (d ++ "\n").data ?_ (by decide)
  simp [reportText, List.append_assoc]

theorem reportText_seg_details {L : String} {lat lon : ℚ} {n t u c w wd : String} :
    strHasSegment (reportText L lat lon n t u c w wd "No detailed forecast available")
      "\nDetails: No detailed forecast available\n" := by
  refine strHasSegment_build _ ("\nDetails: " ++ "No detailed forecast available" ++ "\n") _
    ("\nWeather for " ++ L ++ ":\nCoordinates: " ++ pyFloatStr lat ++ ", " ++ pyFloatStr lon
      ++ "\nForecast: " ++ n ++ "\nTemperature: " ++ t ++ "Â°" ++ u
      ++ "\nConditions: " ++ c ++ "\nWind: " ++ w ++ " " ++ wd).data
    ([] : List Char) ?_ (by decide)
  simp [reportText, List.append_assoc]

/-- Claim C5 (amended: the default for a missing `temperatureUnit` is `"F"`,
not `"Unknown"`; the remaining defaults are as claimed): formatting a period
object never fails, and each absent field shows its default in the report —
`"Unknown"` for name, temperature, conditions and wind speed, `"F"` for the
temperature unit, empty text for wind direction, and the longer default
sentence for the detailed forecast. -/
theorem format_report_defaults (L : String) (lat lon : ℚ) (fs : List (String × Json)) :
    ∃ out, format_report L lat lon (Json.obj fs) = Except.ok out ∧
      (fs.lookup "name" = none → strHasSegment out "\nForecast: Unknown\n") ∧
      (fs.lookup "temperature" = none → strHasSegment out "\nTemperature: UnknownÂ°") ∧
      (fs.lookup "temperatureUnit" = none → strHasSegment out "Â°F\nConditions: ") ∧
      (fs.lookup "shortForecast" = none → strHasSegment out "\nConditions: Unknown\n") ∧
      (fs.lookup "windSpeed" = none → strHasSegment out "\nWind: Unknown ") ∧
      (fs.lookup "windDirection" = none → strHasSegment out " \nDetails: ") ∧
      (fs.lookup "detailedForecast" = none →
        strHasSegment out "\nDetails: No detailed forecast available\n") := by
  refine ⟨reportText L lat lon (slotStr fs "name" "Unknown") (slotStr fs "temperature" "Unknown")
    (slotStr fs "temperatureUnit" "F") (slotStr fs "shortForecast" "Unknown")
    (slotStr fs "windSpeed" "Unknown") (slotStr fs "windDirection" "")
    (slotStr fs "detailedForecast" "No detailed forecast available"),
    rfl, ?_, ?_, ?_, ?_, ?_, ?_, ?_⟩
  · intro h
    rw [show slotStr fs "name" "Unknown" = "Unknown" from by simp [slotStr, h, pyJsonStr]]
    exact reportText_seg_name
  · intro h
    rw [show slotStr fs "temperature" "Unknown" = "Unknown" from by simp [slotStr, h, pyJsonStr]]
    exact reportText_seg_temp
  · intro h
    rw [show slotStr fs "temperatureUnit" "F" = "F" from by simp [slotStr, h, pyJsonStr]]
    exact reportText_seg_unit
  · intro h
    rw [show slotStr fs "shortForecast" "Unknown" = "Unknown" from by simp [slotStr, h, pyJsonStr]]
    exact reportText_seg_cond
  · intro h
    rw [show slotStr fs "windSpeed" "Unknown" = "Unknown" from by simp [slotStr, h, pyJsonStr]]
    exact reportText_seg_wind
  · intro h
    rw [show slotStr fs "windDirection" "" = "" from by simp [slotStr, h, pyJsonStr]]
    exact reportText_seg_winddir
  · intro h
    rw [show slotStr fs "detailedForecast" "No detailed forecast available"
        = "No detailed forecast available" from by simp [slotStr, h, pyJsonStr]]
    exact reportText_seg_details

/-- Claim C5, counterexample: on a period with every field absent the report
is produced with `"F"` in the temperature-unit slot (the line reads
`"Temperature: UnknownÂ°F"`); no occurrence of `"Unknown"` directly after
the degree sign appears anywhere, so the claimed `"Unknown"` default for
the temperature unit does not hold. -/
theorem format_report_absent_unit_counterexample :
    format_report "L" 0 0 (Json.obj [])
      = Except.ok "\nWeather for L:\nCoordinates: 0.0, 0.0\nForecast: Unknown\nTemperature: UnknownÂ°F\nConditions: Unknown\nWind: Unknown \nDetails: No detailed forecast available\n" ∧
    ¬ strHasSegment "\nWeather for L:\nCoordinates: 0.0, 0.0\nForecast: Unknown\nTemperature: UnknownÂ°F\nConditions: Unknown\nWind: Unknown \nDetails: No detailed forecast available\n" "°Unknown" :=
  ⟨rfl, by decide⟩

/-- Claim C5, witness: the amended theorem applied to the all-fields-absent
period. -/
theorem format_report_defaults_witness :
    ∃ out, format_report "L" 0 0 (Json.obj []) = Except.ok out ∧
      strHasSegment out "\nForecast: Unknown\n" ∧
      strHasSegment out "\nTemperature: UnknownÂ°" ∧
      strHasSegment out "Â°F\nConditions: " ∧
      strHasSegment out "\nConditions: Unknown\n" ∧
      strHasSegment out "\nWind: Unknown " ∧
      strHasSegment out " \nDetails: " ∧
      strHasSegment out "\nDetails: No detailed forecast available\n" := by
  obtain ⟨out, h1, h2, h3, h4, h5, h6, h7, h8⟩ := format_report_defaults "L" 0 0 []
  exact ⟨out, h1, h2 rfl, h3 rfl, h4 rfl, h5 rfl, h6 rfl, h7 rfl, h8 rfl⟩

/-- Points body whose `relativeLocation` city value is present but equals
the string `"Unknown"`. -/
def pointsUnknownCity : Json := Json.obj [("properties", Json.obj [("relativeLocation",
  Json.obj [("properties", Json.obj [("city", Json.str "Unknown"),
    ("state", Json.str "CA")])])])]

/-- Environment whose points re-fetch returns `pointsUnknownCity`. -/
def envUnknownCity : Env := Env.mk (fun _ _ => none) (fun _ _ => some pointsUnknownCity)

/-- Claim C10, counterexample: the re-fetch succeeds and the city field is
present (with value `"Unknown"` and state `"CA"`), yet the location display
falls back to the original input text rather than showing the city/state
pair — so the fallback is not restricted to a failed re-fetch or an absent
city field. -/
theorem locationDisplay_present_city_fallback_counterexample :
    make_nws_request envUnknownCity 2 "u" = some pointsUnknownCity ∧
    (jsonItem pointsUnknownCity "properties").bind
        (fun p => (jsonItem p "relativeLocation").bind
          (fun r => (jsonItem r "properties").bind
            (fun q => jsonItem q "city"))) = some (Json.str "Unknown") ∧
    locationDisplay envUnknownCity "InputPlace" "u" = Except.ok "InputPlace" ∧
    "InputPlace" ≠ "Unknown, CA" :=
  ⟨rfl, rfl, rfl, by decide⟩

/-- Claim C10 (amended: the fallback to the input place happens exactly when
the points re-fetch yields no truthy body or the extracted city value equals
`"Unknown"` — which includes an absent city field, whose default is
`"Unknown"`): when the re-fetch returns a well-formed nesting and the city
value is text `c`, the location line is the input place if `c = "Unknown"`,
and otherwise `"{c}, {state}"` with the state value defaulting to the
literal `"Unknown"` when absent. -/
theorem locationDisplay_city_state (env : Env) (city purl : String)
    (pf qf rf sf : List (String × Json)) (c : String)
    (hresp : make_nws_request env 2 purl = some (Json.obj pf))
    (hq : pf.lookup "properties" = some (Json.obj qf))
    (hr : qf.lookup "relativeLocation" = some (Json.obj rf))
    (hs : rf.lookup "properties" = some (Json.obj sf))
    (hc : sf.lookup "city" = some (Json.str c)) :
    locationDisplay env city purl
      = Except.ok (if c == "Unknown" then city
          else c ++ ", " ++ pyJsonStr ((sf.lookup "state").getD (Json.str "Unknown"))) := by
  have hne : pf.isEmpty = false := by
    cases pf with
    | nil => simp at hq
    | cons a l => rfl
  unfold locationDisplay
  rw [hresp]
  simp only [jsonTruthy, hne, Bool.not_false, pyGet, hq, hr, hs, hc, Option.getD_some, if_true]
  by_cases h : (c == "Unknown") = true
  · rw [if_pos h, if_pos h]
  · rw [if_neg h, if_neg h]

/-- Points body with a city but no state under `relativeLocation`. -/
def pointsOaklandNoState : Json := Json.obj [("properties", Json.obj [("relativeLocation",
  Json.obj [("properties", Json.obj [("city", Json.str "Oakland")])])])]

/-- Environment whose points re-fetch returns `pointsOaklandNoState`. -/
def envOakland : Env := Env.mk (fun _ _ => none) (fun _ _ => some pointsOaklandNoState)

/-- Claim C10, witness: city `"Oakland"` present, state absent — the line is
`"Oakland, Unknown"`, not the input place text. -/
theorem locationDisplay_city_state_witness :
    locationDisplay envOakland "X" "u" = Except.ok "Oakland, Unknown" :=
  (locationDisplay_city_state envOakland "X" "u"
    [("properties", Json.obj [("relativeLocation",
      Json.obj [("properties", Json.obj [("city", Json.str "Oakland")])])])]
    [("relativeLocation", Json.obj [("properties", Json.obj [("city", Json.str "Oakland")])])]
    [("properties", Json.obj [("city", Json.str "Oakland")])]
    [("city", Json.str "Oakland")]
    "Oakland" rfl rfl rfl rfl rfl).trans (by rfl)
